import Mathlib

/-!
Verification development for the Vulkan pipeline-state compilation and
lifecycle manager of DagorEngine (drv3d_vulkan pipeline subsystem).

The definitions below are shallow embeddings of the functions in
  src/prog/engine/drv/drv3d_vulkan/pipeline/main_pipelines.cpp
  src/prog/engine/drv/drv3d_vulkan/pipeline/manager.h
Machine integers are modelled as Nat (handles: 0 stands for VK_NULL_HANDLE)
and Int (VkResult: 0 stands for VK_SUCCESS, negative values are errors).
Parts of the program that live outside the provided sources (the base
pipeline class, the program-identifier encoding, the background compiler
queue) are modelled from the specification and marked as such.
-/

namespace drv3d_vulkan

/-- VkResult, 0 = VK_SUCCESS; error codes are nonzero (negative in Vulkan). -/
abbrev VkResult := Int

/-- VK_ERROR_UNKNOWN as used by ComputePipeline::compile when a success
result carries a null handle. -/
def VK_ERROR_UNKNOWN : VkResult := -13

/-- VULKAN_OK(r) tests the result for success. -/
def vulkanOk (r : VkResult) : Bool := r = 0

/-- VULKAN_FAIL(r) is the negation of VULKAN_OK(r). -/
def vulkanFail (r : VkResult) : Bool := ¬ (r = 0)

/-! ## checkSampleCount (main_pipelines.cpp lines 157-183)

The function translates a forced sample count into a VkSampleCountFlagBits
value; the Vulkan flag bit VK_SAMPLE_COUNT_N_BIT has numeric value N for
N in {1,2,4,8,16,32,64}.  G_ASSERTF conditions are recorded in the result:
a field is true when the asserted condition holds (no assertion failure)
and false when the assertion fires (fatal in the engine).  The early
return for count <= 1 happens before either assertion is evaluated, which
is modelled by both fields being true on that path. -/

/-- Result of checkSampleCount: the returned sample-count bits plus the two
G_ASSERTF conditions (true = assertion passed, false = assertion fired). -/
structure SampleCountResult where
  ret : Nat
  assertSampleSupported : Bool
  assertNoAttachments : Bool
  deriving DecidableEq, Repr

/-- The switch statement of checkSampleCount translating the count into
VkSampleCountFlagBits (whose numeric value is the count itself for the
named cases; the default arm casts the count directly). -/
def sampleCountSwitch (count : Nat) : Nat :=
  match count with
  | 2 => 2
  | 4 => 4
  | 8 => 8
  | 16 => 16
  | 32 => 32
  | 64 => 64
  | c => c

/-- Shallow embedding of checkSampleCount(count, colorMask, hasDepth); the
device limit framebufferNoAttachmentsSampleCounts is passed explicitly. -/
def checkSampleCount (count : Nat) (colorMask : Nat) (hasDepth : Bool)
    (framebufferNoAttachmentsSampleCounts : Nat) : SampleCountResult :=
  if count ≤ 1 then
    { ret := 1, assertSampleSupported := true, assertNoAttachments := true }
  else
    let ret : Nat := sampleCountSwitch count
    { ret := ret
      assertSampleSupported := (framebufferNoAttachmentsSampleCounts &&& ret) ≠ 0
      assertNoAttachments := ¬ hasDepth ∧ colorMask = 0 }

/-! ## Depth/stencil and rasterization state (GraphicsPipeline constructor)

Lines 261, 282, 316-320 assign the depth related create-info fields from
the static render state; lines 405-414 override them all to disabled when
the resolved render-target configuration has no depth attachment. -/

/-- The depth related bits of the static render state fetched via
rsBackend.getStatic (external collaborator; only the fields read by the
embedded construction code are modelled). -/
structure StaticStateBits where
  depthClipEnable : Bool
  depthTestEnable : Bool
  depthWriteEnable : Bool
  depthBoundsEnable : Bool
  stencilTestEnable : Bool
  deriving DecidableEq, Repr

/-- Depth/stencil create-info fields relevant to the depth-disable rule. -/
structure DepthStencilStateCI where
  depthTestEnable : Bool
  depthWriteEnable : Bool
  depthBoundsTestEnable : Bool
  stencilTestEnable : Bool
  deriving DecidableEq, Repr

/-- Rasterization create-info fields relevant to the depth-disable rule. -/
structure RasterStateCI where
  depthClampEnable : Bool
  depthBiasEnable : Bool
  deriving DecidableEq, Repr

/-- Shallow embedding of the GraphicsPipeline constructor fragment that
produces the depth/stencil and rasterization depth fields: the initial
assignments from the static state (with forceNoZWrite folded into
depthWriteEnable and the Android depth-clamp special case), followed by the
no-depth override block. -/
def buildDepthAndRaster (targetAndroid : Bool) (ss : StaticStateBits)
    (forceNoZWrite hasDepth : Bool) : DepthStencilStateCI × RasterStateCI :=
  let raster0 : RasterStateCI :=
    { depthClampEnable := if targetAndroid then false else ¬ ss.depthClipEnable
      depthBiasEnable := true }
  let ds0 : DepthStencilStateCI :=
    { depthTestEnable := ss.depthTestEnable
      depthWriteEnable := ss.depthWriteEnable ∧ ¬ forceNoZWrite
      depthBoundsTestEnable := ss.depthBoundsEnable
      stencilTestEnable := ss.stencilTestEnable }
  if hasDepth then
    (ds0, raster0)
  else
    ({ depthTestEnable := false
       depthWriteEnable := false
       depthBoundsTestEnable := false
       stencilTestEnable := false },
     { depthClampEnable := false, depthBiasEnable := false })

/-! ## Color-blend attachment count (constructor lines 332-403)

The loop walks slot indices while the shifted render-pass color-target mask
is nonzero, bounded by Driver3dRenderTarget::MAX_SIMRT; a slot is skipped
(not counted) when it is a multisample resolve attachment of a legacy
(non-native) render pass.  The uint32 mask is truncated to uint8 before
the loop. -/

/-- Driver3dRenderTarget::MAX_SIMRT. -/
def MAX_SIMRT : Nat := 8

/-- The skip condition of the attachment loop (line 348): slot i is a
multisample resolve attachment when it is preceded by a color target with
more than one sample and the pipeline uses a legacy (non-native) render
pass. -/
def isResolveAttachment (i : Nat) (cs : Nat → Nat) (nativeRP : Bool) : Bool :=
  0 < i ∧ 1 < cs (i - 1) ∧ ¬ nativeRP

/-- One pass of the attachment loop, fuel = remaining loop iterations
(MAX_SIMRT - i); rpMask is the already-shifted mask, cs gives
info.varDsc.rpClass.colorSamples, acc is attachmentCount so far. -/
def attachmentLoop : Nat → Nat → Nat → (Nat → Nat) → Bool → Nat → Nat
  | 0, _, _, _, _, acc => acc
  | fuel + 1, i, rpMask, cs, nativeRP, acc =>
    if rpMask = 0 then acc
    else
      attachmentLoop fuel (i + 1) (rpMask / 2) cs nativeRP
        (if isResolveAttachment i cs nativeRP then acc else acc + 1)

/-- Shallow embedding of the attachmentCount computation of the
GraphicsPipeline constructor: zero when rpColorTargetMask is zero, else the
loop over the uint8 truncation of the mask. -/
def colorBlendAttachmentCount (rpColorTargetMask : Nat) (cs : Nat → Nat)
    (nativeRP : Bool) : Nat :=
  if rpColorTargetMask ≠ 0 then
    attachmentLoop MAX_SIMRT 0 (rpColorTargetMask % 256) cs nativeRP 0
  else 0

/-! ## ComputePipeline compilation and bind (main_pipelines.cpp lines 49-79, 81-153)

The driver call vkCreateComputePipelines is an external oracle: it replies
with a VkResult and a handle (0 = VK_NULL_HANDLE).  ComputePipeline::compile
turns a success reply carrying a null handle into VK_ERROR_UNKNOWN and then
runs VULKAN_EXIT_ON_FAIL, so a failing result invokes the global fatal/exit
path and never stores a handle. -/

/-- Reply of the native vkCreateComputePipelines call. -/
structure DriverComputeReply where
  compileResult : VkResult
  retHandle : Nat
  deriving DecidableEq, Repr

/-- Outcome of ComputePipeline::compile. -/
inductive ComputeCompileOutcome where
  | fatalExit
  | compiled (handle : Nat)
  deriving DecidableEq, Repr

/-- Shallow embedding of ComputePipeline::compile (lines 104-152): the
success-with-null-handle reply is downgraded to VK_ERROR_UNKNOWN, then
VULKAN_EXIT_ON_FAIL fires on any failing result; otherwise the returned
handle is stored (setCompiledHandle on the async path, setHandle on
the sync path). -/
def ComputePipeline.compileStep (drv : DriverComputeReply) : ComputeCompileOutcome :=
  let compileResult :=
    if drv.retHandle = 0 ∧ vulkanOk drv.compileResult then VK_ERROR_UNKNOWN
    else drv.compileResult
  if vulkanFail compileResult then .fatalExit
  else .compiled drv.retHandle

/-- State of a ComputePipeline as visible to bind.  A pipeline constructed
with asynchronous compilation enabled starts pending, carrying the driver
reply its queued compile will observe; once compiled it holds the native
handle.  Modelled from the spec: checkCompiled / setCompiledHandle of the
base pipeline class (not among the provided sources) track exactly this
pending/compiled distinction. -/
inductive ComputePipelineState where
  | pending (drv : DriverComputeReply)
  | compiled (handle : Nat)
  deriving DecidableEq, Repr

/-- States a ComputePipeline can actually be in: construction with async
compile enabled yields a pending state (handle null, compile queued), and
the only transition to the compiled state is a completed compileStep. -/
inductive ReachableComputeState : ComputePipelineState → Prop
  | construct (drv : DriverComputeReply) : ReachableComputeState (.pending drv)
  | compileDone (drv : DriverComputeReply) (h : Nat) :
      ComputePipeline.compileStep drv = .compiled h →
      ReachableComputeState (.compiled h)

/-- Shallow embedding of ComputePipeline::bind (lines 71-79): if the
pipeline is not yet compiled it first blocks on the Background Compiler
Queue (modelled from the spec: waitFor blocks until this pipeline's
compile has run, i.e. until compileStep on its driver reply completes).
The result is the handle passed to vkCmdBindPipeline, or none when the
compile took the fatal-exit path before bind could issue the native call. -/
def ComputePipeline.bindStep (s : ComputePipelineState) : Option Nat :=
  match s with
  | .compiled h => some h
  | .pending drv =>
    match ComputePipeline.compileStep drv with
    | .fatalExit => none
    | .compiled h => some h

/-! ## GraphicsPipeline compilation (main_pipelines.cpp lines 466-539)

createPipelineObject runs VULKAN_EXIT_ON_FAIL directly on the result of
vkCreateGraphicsPipelines, so an error result is fatal there; compile()
then checks the returned handle for null, logs an error (logerr) in that
case, and stores the handle either way. -/

/-- Reply of the native vkCreateGraphicsPipelines call. -/
structure DriverGfxReply where
  createResult : VkResult
  retHandle : Nat
  deriving DecidableEq, Repr

/-- Observable outcome of GraphicsPipeline::compile. -/
structure GfxCompileOutcome where
  fatalInvoked : Bool
  errorLogged : Bool
  storedHandle : Option Nat
  deriving DecidableEq, Repr

/-- Shallow embedding of GraphicsPipeline::compile (lines 466-521) around
the createPipelineObject call (lines 523-539): a failing driver result hits
VULKAN_EXIT_ON_FAIL inside createPipelineObject (fatal, nothing stored); a
success result with a null handle is logged via logerr and then stored like
any other handle (setCompiledHandle / setHandle). -/
def GraphicsPipeline.compileStep (drv : DriverGfxReply) : GfxCompileOutcome :=
  if vulkanFail drv.createResult then
    { fatalInvoked := true, errorLogged := false, storedHandle := none }
  else if drv.retHandle = 0 then
    { fatalInvoked := false, errorLogged := true, storedHandle := some 0 }
  else
    { fatalInvoked := false, errorLogged := false, storedHandle := some drv.retHandle }

/-! ## Derivative pipelines (createPipelineObject, lines 527-532) -/

/-- VK_PIPELINE_CREATE_ALLOW_DERIVATIVES_BIT. -/
def VK_PIPELINE_CREATE_ALLOW_DERIVATIVES_BIT : Nat := 2

/-- VK_PIPELINE_CREATE_DERIVATIVE_BIT. -/
def VK_PIPELINE_CREATE_DERIVATIVE_BIT : Nat := 4

/-- The derivative-related fields of VkGraphicsPipelineCreateInfo. -/
structure GpciDerivFields where
  flags : Nat
  basePipelineIndex : Int
  basePipelineHandle : Nat
  deriving DecidableEq, Repr

/-- The values the GraphicsPipeline constructor writes into the
derivative-related create-info fields (lines 455-457). -/
def initialGpciDerivFields : GpciDerivFields :=
  { flags := VK_PIPELINE_CREATE_ALLOW_DERIVATIVES_BIT
    basePipelineIndex := 0
    basePipelineHandle := 0 }

/-- Shallow embedding of the derivative step at the top of
createPipelineObject: parentPipe is none when no parent pipeline was
designated, some h when a parent exists whose compiled native handle is h
(0 = still null).  Modelled from the spec for the part outside the provided
sources: getCompiledHandle / getHandle of the base pipeline class both
denote the parent's compiled native handle.  When the parent handle is
non-null the create-info gains the derivative flag, basePipelineIndex -1
and the parent handle; otherwise the create-info is left untouched. -/
def createPipelineObjectDerivStep (parentPipe : Option Nat)
    (g : GpciDerivFields) : GpciDerivFields :=
  match parentPipe with
  | none => g
  | some h =>
    if h ≠ 0 then
      { flags := g.flags ||| VK_PIPELINE_CREATE_DERIVATIVE_BIT
        basePipelineIndex := -1
        basePipelineHandle := h }
    else g

/-! ## Pipeline storage (manager.h lines 15-118)

PipelineManagerStorage keeps an append-only list of layouts (deduplicated
by structural match) and a slot array of pipeline pointers indexed by the
program identifier's linear index.  Pointers are modelled by list indices
(layouts) and by Option-valued slots (pipelines); a Layout pointer is its
index in the append-only layouts list, which is stable because layouts are
only ever appended until a full unload. -/

/-- Modelled from the spec: the Program Identifier (owned by the upstream
shader-program system, not among the provided sources) is an opaque,
strongly-typed index; the namespace tag distinguishes the pipeline kinds
and the index maps to a dense storage slot. -/
structure ProgramID where
  tag : Nat
  index : Nat
  deriving DecidableEq, Repr

/-- Modelled from the spec: ProgramType::checkID tests that the
identifier's namespace tag is the one of this pipeline kind. -/
def checkID (kindTag : Nat) (p : ProgramID) : Bool := p.tag = kindTag

/-- Modelled from the spec: ProgramType::getIndexFromID extracts the dense
storage-slot index. -/
def getIndexFromID (p : ProgramID) : Nat := p.index

/-- A stored pipeline: the layout it references (as an index into the
append-only layouts list, standing for the Layout pointer) and the
creation description it was constructed from. -/
structure Pipe (α : Type) where
  layoutIdx : Nat
  info : α
  deriving DecidableEq, Repr

/-- PipelineManagerStorage: the layouts list and the pipeline slot array.
Each layout is represented by its CreationInfo (the base class
LayoutType::matches is, per the spec, a structural-equality scan, so a
layout is determined by its description). -/
structure Storage (α : Type) where
  layouts : List α
  pipelines : List (Option (Pipe α))
  deriving DecidableEq, Repr

variable {α : Type} [DecidableEq α]

/-- Shallow embedding of PipelineManagerStorage::findOrAddLayout (lines
24-35): scan the layouts in order, return the first structural match,
else construct a new layout (its description) and append it.  Returns the
index of the resulting layout (the Layout pointer) and the new list.
Modelled from the spec for LayoutType::matches (not among the provided
sources): matching is structural equality of the creation descriptions. -/
def findOrAddLayout : List α → α → Nat × List α
  | [], info => (0, [info])
  | l :: ls, info =>
    if l = info then (0, l :: ls)
    else
      let r := findOrAddLayout ls info
      (r.1 + 1, l :: r.2)

/-- Shallow embedding of ensureSpaceForIndex (lines 37-45): grow the slot
array with zero-filled (none) slots so that index is addressable. -/
def ensureSpaceForIndex (pipelines : List (Option (Pipe α))) (index : Nat) :
    List (Option (Pipe α)) :=
  if pipelines.length ≤ index then
    pipelines ++ List.replicate (index + 1 - pipelines.length) none
  else pipelines

/-- Shallow embedding of PipelineManagerStorage::add (lines 74-85): assert
the identifier belongs to this kind, find or add the layout, grow the slot
array, assert the target slot is empty, then construct the pipeline in the
slot.  A failed G_ASSERT is modelled as none. -/
def Storage.add (kindTag : Nat) (s : Storage α) (program : ProgramID)
    (info : α) : Option (Storage α) :=
  if ¬ checkID kindTag program then none
  else
    let fa := findOrAddLayout s.layouts info
    let grown := ensureSpaceForIndex s.pipelines (getIndexFromID program)
    if grown.getD (getIndexFromID program) none ≠ none then none
    else
      some { layouts := fa.2
             pipelines := grown.set (getIndexFromID program)
               (some { layoutIdx := fa.1, info := info }) }

/-- Shallow embedding of PipelineManagerStorage::takeOut (lines 88-95):
read the slot, replace it with nullptr, return the previous pointer.
G_ASSERT(ret) holds exactly when the returned value is not none. -/
def Storage.takeOut (s : Storage α) (index : Nat) :
    Option (Pipe α) × Storage α :=
  (s.pipelines.getD index none,
   { s with pipelines := s.pipelines.set index none })

/-- Shallow embedding of PipelineManagerStorage::valid (lines 113-117):
kind check, bounds check (index is a Nat, so 0 <= index holds by type) and
null check. -/
def Storage.valid (kindTag : Nat) (s : Storage α) (program : ProgramID) : Bool :=
  checkID kindTag program
    ∧ getIndexFromID program < s.pipelines.length
    ∧ s.pipelines.getD (getIndexFromID program) none ≠ none

/-- A sequence of add calls into one storage, failing as soon as one add
fails its assertions. -/
def Storage.addSeq (kindTag : Nat) (s : Storage α) :
    List (ProgramID × α) → Option (Storage α)
  | [] => some s
  | (p, d) :: rest =>
    match s.add kindTag p d with
    | none => none
    | some s' => s'.addSeq kindTag rest

/-! ## PipelineManager::visit (manager.h lines 171-196)

The macro expands to a cascade: for each pipeline kind in order (graphics,
compute, raytrace), if the identifier's tag matches that kind, return false
when the storage's valid check fails, otherwise invoke func once on the
stored pipeline and return true; if no kind matches, return false.  The
invocations of func are modelled as the returned list. -/

/-- Namespace tag of the graphics pipeline kind. -/
def graphicsTag : Nat := 0

/-- Namespace tag of the compute pipeline kind. -/
def computeTag : Nat := 1

/-- Namespace tag of the raytrace pipeline kind. -/
def raytraceTag : Nat := 2

/-- Which kind-specific storage a visit invocation dispatched to. -/
inductive VisitedKind where
  | graphics
  | compute
  | raytrace
  deriving DecidableEq, Repr

/-- PipelineManager: one storage per pipeline kind. -/
structure PipelineManager (α : Type) where
  graphics : Storage α
  compute : Storage α
  raytrace : Storage α

/-- Shallow embedding of PipelineManager::visit: returns the source's
boolean result together with the list of invocations of func (each entry
is the storage kind and the slot content passed to func via get). -/
def PipelineManager.visit (m : PipelineManager α) (program : ProgramID) :
    Bool × List (VisitedKind × Option (Pipe α)) :=
  if checkID graphicsTag program then
    if m.graphics.valid graphicsTag program then
      (true, [(.graphics, m.graphics.pipelines.getD (getIndexFromID program) none)])
    else (false, [])
  else if checkID computeTag program then
    if m.compute.valid computeTag program then
      (true, [(.compute, m.compute.pipelines.getD (getIndexFromID program) none)])
    else (false, [])
  else if checkID raytraceTag program then
    if m.raytrace.valid raytraceTag program then
      (true, [(.raytrace, m.raytrace.pipelines.getD (getIndexFromID program) none)])
    else (false, [])
  else (false, [])

/-! ## Supporting lemmas -/

/-- The sample-count switch is the identity on its argument: every named
case maps N to N and the default arm returns the count unchanged. -/
theorem sampleCountSwitch_eq (count : Nat) : sampleCountSwitch count = count := by
  unfold sampleCountSwitch
  split <;> rfl

/-- A completed ComputePipeline::compile never produced a null handle: a
success reply with a null handle is downgraded to VK_ERROR_UNKNOWN and a
failing reply exits, so the compiled branch implies a non-null handle. -/
theorem ComputePipeline.compileStep_compiled_ne_zero (drv : DriverComputeReply)
    (h : Nat) (hc : ComputePipeline.compileStep drv = .compiled h) : h ≠ 0 := by
  by_cases hnull : drv.retHandle = 0
  · by_cases hok : drv.compileResult = 0 <;>
      simp [ComputePipeline.compileStep, hnull, hok, vulkanOk, vulkanFail,
        VK_ERROR_UNKNOWN] at hc
  · simp only [ComputePipeline.compileStep] at hc
    split at hc
    · rename_i hin
      exact absurd hin.1 hnull
    · split at hc
      · simp at hc
      · simp only [ComputeCompileOutcome.compiled.injEq] at hc
        omega

/-- The skip condition is false when the render pass is native or when no
color target is multisampled. -/
theorem isResolveAttachment_false (i : Nat) (cs : Nat → Nat) (nativeRP : Bool)
    (h : nativeRP = true ∨ cs (i - 1) ≤ 1) :
    isResolveAttachment i cs nativeRP = false := by
  rcases h with h | h
  · simp [isResolveAttachment, h]
  · simp only [isResolveAttachment, decide_eq_false_iff_not]
    rintro ⟨-, h2, -⟩
    omega

/-- The attachment loop leaves the accumulator untouched once the shifted
mask is zero. -/
theorem attachmentLoop_zero_mask (cs : Nat → Nat) (nativeRP : Bool) :
    ∀ fuel i acc, attachmentLoop fuel i 0 cs nativeRP acc = acc
  | 0, _, _ => rfl
  | fuel + 1, i, acc => by simp [attachmentLoop]

/-- Unfolding step of Nat.log2 for arguments of at least two. -/
theorem log2_div_two_step (n : Nat) (h : 2 ≤ n) :
    Nat.log2 n = Nat.log2 (n / 2) + 1 := by
  conv_lhs => rw [Nat.log2]
  rw [if_pos h]

/-- When no slot is skipped, the attachment loop counts one slot per mask
bit up to and including the highest set bit: it adds log2(mask) + 1. -/
theorem attachmentLoop_no_skip (cs : Nat → Nat) (nativeRP : Bool)
    (hns : nativeRP = true ∨ ∀ j, cs j ≤ 1) :
    ∀ fuel mask i acc, mask ≠ 0 → mask < 2 ^ fuel →
      attachmentLoop fuel i mask cs nativeRP acc = acc + Nat.log2 mask + 1 := by
  intro fuel
  induction fuel with
  | zero =>
    intro mask i acc h0 hlt
    simp at hlt
    omega
  | succ n ih =>
    intro mask i acc h0 hlt
    rw [attachmentLoop, if_neg h0,
      isResolveAttachment_false i cs nativeRP
        (hns.imp id fun h => h (i - 1))]
    simp only [Bool.false_eq_true, if_false]
    by_cases hm : mask / 2 = 0
    · have hmask1 : mask = 1 := by omega
      subst hmask1
      rw [show (1 : Nat) / 2 = 0 from rfl, attachmentLoop_zero_mask]
      have hlog : Nat.log2 1 = 0 := by simp [Nat.log2]
      omega
    · have hhalf : mask / 2 < 2 ^ n := by
        have hp : mask < 2 ^ n * 2 := by
          rw [← pow_succ]
          exact hlt
        omega
      rw [ih (mask / 2) (i + 1) (acc + 1) hm hhalf,
        log2_div_two_step mask (by omega)]
      omega

/-! ## Layout-store and slot-array lemmas -/

/-- findOrAddLayout only ever appends to the layouts list (it returns the
list unchanged on a match and extended by one new layout otherwise), so a
layout's index is a stable stand-in for the Layout pointer. -/
theorem findOrAddLayout_grows (l : List α) (d : α) :
    ∃ t, (findOrAddLayout l d).2 = l ++ t := by
  induction l with
  | nil => exact ⟨[d], rfl⟩
  | cons x ls ih =>
    simp only [findOrAddLayout]
    split
    · exact ⟨[], by simp⟩
    · obtain ⟨t, ht⟩ := ih
      exact ⟨t, by simp [ht]⟩

/-- First-match stability: once findOrAddLayout has resolved a description
to an index, running it again on any extension of the resulting layouts
list resolves the same description to the same index. -/
theorem findOrAddLayout_idx_stable (l : List α) (d : α) (t : List α) :
    (findOrAddLayout ((findOrAddLayout l d).2 ++ t) d).1
      = (findOrAddLayout l d).1 := by
  induction l with
  | nil => simp [findOrAddLayout]
  | cons x ls ih =>
    by_cases hx : x = d
    · simp [findOrAddLayout, hx]
    · simp only [findOrAddLayout, if_neg hx, List.append_eq]
      rw [ih]

/-- A slot that holds a pipeline is inside the bounds of the slot array. -/
theorem list_getD_ne_none_lt {β : Type} (l : List (Option β)) (j : Nat)
    (h : l.getD j none ≠ none) : j < l.length := by
  by_contra hge
  push_neg at hge
  rw [List.getD_eq_getElem?_getD, List.getElem?_eq_none hge] at h
  exact h rfl

/-- ensureSpaceForIndex makes the requested index addressable. -/
theorem ensureSpaceForIndex_lt_length (l : List (Option (Pipe α))) (idx : Nat) :
    idx < (ensureSpaceForIndex l idx).length := by
  unfold ensureSpaceForIndex
  split
  · rename_i hle
    simp only [List.length_append, List.length_replicate]
    omega
  · rename_i hgt
    omega

/-- ensureSpaceForIndex leaves every already-existing slot unchanged. -/
theorem ensureSpaceForIndex_getD_of_lt (l : List (Option (Pipe α))) (idx j : Nat)
    (hj : j < l.length) :
    (ensureSpaceForIndex l idx).getD j none = l.getD j none := by
  unfold ensureSpaceForIndex
  split
  · rw [List.getD_eq_getElem?_getD, List.getElem?_append_left hj,
      ← List.getD_eq_getElem?_getD]
  · rfl

/-- ensureSpaceForIndex zero-fills: if the requested slot was empty (or did
not exist), it is empty afterwards. -/
theorem ensureSpaceForIndex_getD_self (l : List (Option (Pipe α))) (idx : Nat)
    (h : l.getD idx none = none) :
    (ensureSpaceForIndex l idx).getD idx none = none := by
  unfold ensureSpaceForIndex
  split
  · rename_i hle
    rw [List.getD_eq_getElem?_getD, List.getElem?_append_right hle,
      List.getElem?_replicate_of_lt (by omega)]
    rfl
  · exact h

/-- Unpacking a successful add: the kind check passed, the layouts list is
the findOrAddLayout result, the slot array is the grown array with the new
pipeline written at the program's index, and that slot was empty before. -/
theorem Storage.add_spec {kindTag : Nat} {s s' : Storage α} {p : ProgramID}
    {d : α} (h : s.add kindTag p d = some s') :
    checkID kindTag p = true
    ∧ s'.layouts = (findOrAddLayout s.layouts d).2
    ∧ s'.pipelines = (ensureSpaceForIndex s.pipelines (getIndexFromID p)).set
        (getIndexFromID p) (some ⟨(findOrAddLayout s.layouts d).1, d⟩)
    ∧ (ensureSpaceForIndex s.pipelines (getIndexFromID p)).getD
        (getIndexFromID p) none = none := by
  simp only [Storage.add] at h
  split at h
  · simp at h
  · rename_i hck
    split at h
    · simp at h
    · rename_i hslot
      simp only [Option.some.injEq] at h
      subst h
      refine ⟨by simpa using hck, rfl, rfl, by simpa using hslot⟩

/-- A successful add stores, at the program's slot, a pipeline referencing
the layout index findOrAddLayout resolved for its description. -/
theorem Storage.add_sets_slot {kindTag : Nat} {s s' : Storage α}
    {p : ProgramID} {d : α} (h : s.add kindTag p d = some s') :
    s'.pipelines.getD (getIndexFromID p) none =
      some ⟨(findOrAddLayout s.layouts d).1, d⟩ := by
  obtain ⟨-, -, hp, -⟩ := Storage.add_spec h
  rw [hp, List.getD_eq_getElem?_getD,
    List.getElem?_set_self (ensureSpaceForIndex_lt_length s.pipelines _)]
  rfl

/-- A successful add leaves every occupied slot unchanged (its own target
slot was empty, so it is distinct from every occupied one). -/
theorem Storage.add_preserves_slot {kindTag : Nat} {s s' : Storage α}
    {p : ProgramID} {d : α} (h : s.add kindTag p d = some s') (j : Nat)
    (hj : s.pipelines.getD j none ≠ none) :
    s'.pipelines.getD j none = s.pipelines.getD j none := by
  obtain ⟨-, -, hp, hempty⟩ := Storage.add_spec h
  have hjlt : j < s.pipelines.length := list_getD_ne_none_lt _ _ hj
  have hne : getIndexFromID p ≠ j := by
    intro heq
    rw [← heq] at hjlt hj
    apply hj
    rw [← ensureSpaceForIndex_getD_of_lt s.pipelines (getIndexFromID p)
      (getIndexFromID p) hjlt]
    exact hempty
  rw [hp, List.getD_eq_getElem?_getD, List.getElem?_set_ne hne,
    ← List.getD_eq_getElem?_getD, ensureSpaceForIndex_getD_of_lt _ _ _ hjlt]

/-- A successful sequence of adds only appends to the layouts list. -/
theorem Storage.addSeq_layouts_grow {kindTag : Nat} {s s' : Storage α}
    {ops : List (ProgramID × α)} (h : s.addSeq kindTag ops = some s') :
    ∃ t, s'.layouts = s.layouts ++ t := by
  induction ops generalizing s with
  | nil =>
    simp only [Storage.addSeq, Option.some.injEq] at h
    exact ⟨[], by rw [← h, List.append_nil]⟩
  | cons op rest ih =>
    obtain ⟨p0, d0⟩ := op
    simp only [Storage.addSeq] at h
    rcases hadd : s.add kindTag p0 d0 with _ | s1 <;> simp only [hadd] at h
    · simp at h
    · obtain ⟨-, hl, -, -⟩ := Storage.add_spec hadd
      obtain ⟨t1, ht1⟩ := findOrAddLayout_grows s.layouts d0
      obtain ⟨t2, ht2⟩ := ih h
      exact ⟨t1 ++ t2, by rw [ht2, hl, ht1, List.append_assoc]⟩

/-- A successful sequence of adds leaves every occupied slot unchanged. -/
theorem Storage.addSeq_preserves_slot {kindTag : Nat} {s s' : Storage α}
    {ops : List (ProgramID × α)} (h : s.addSeq kindTag ops = some s')
    (j : Nat) (hj : s.pipelines.getD j none ≠ none) :
    s'.pipelines.getD j none = s.pipelines.getD j none := by
  induction ops generalizing s with
  | nil =>
    simp only [Storage.addSeq, Option.some.injEq] at h
    rw [← h]
  | cons op rest ih =>
    obtain ⟨p0, d0⟩ := op
    simp only [Storage.addSeq] at h
    rcases hadd : s.add kindTag p0 d0 with _ | s1 <;> simp only [hadd] at h
    · simp at h
    · have hpres := Storage.add_preserves_slot hadd j hj
      have hj1 : s1.pipelines.getD j none ≠ none := by
        rw [hpres]
        exact hj
      rw [ih h hj1, hpres]

/-! ## Claim theorems -/

/-- C1: for a ComputePipeline constructed with asynchronous compilation
enabled (and in general in every reachable pipeline state), bind never
issues the native vkCmdBindPipeline call with a null handle: a pending
pipeline first blocks on the Background Compiler Queue for this specific
pipeline, and the compile either exits fatally (no bind is issued) or
produces a non-null handle, so the handle passed to the native bind is
always the compiled, non-null handle. -/
theorem claim_C1_bind_never_null (s : ComputePipelineState)
    (hs : ReachableComputeState s) (h : Nat)
    (hb : ComputePipeline.bindStep s = some h) : h ≠ 0 := by
  cases hs with
  | construct drv =>
    simp only [ComputePipeline.bindStep] at hb
    rcases hc : ComputePipeline.compileStep drv with _ | h'
    · rw [hc] at hb
      simp at hb
    · rw [hc] at hb
      simp only [Option.some.injEq] at hb
      subst hb
      exact ComputePipeline.compileStep_compiled_ne_zero drv h' hc
  | compileDone drv h' hc =>
    simp only [ComputePipeline.bindStep, Option.some.injEq] at hb
    subst hb
    exact ComputePipeline.compileStep_compiled_ne_zero drv h' hc

/-- Witness for C1 at a concrete pending pipeline whose queued compile
succeeds with handle 7. -/
theorem claim_C1_witness :
    ComputePipeline.bindStep (.pending ⟨0, 7⟩) = some 7 ∧ (7 : Nat) ≠ 0 :=
  ⟨by decide, claim_C1_bind_never_null (.pending ⟨0, 7⟩)
    (ReachableComputeState.construct ⟨0, 7⟩) 7 (by decide)⟩

/-- C3 counterexample: at the concrete driver reply (VK_SUCCESS, null
handle), GraphicsPipeline::compile does not invoke the global fatal/exit
path and stores the null handle as the pipeline's result, contradicting
the claim that the outcome is fatal and that the pipeline never ends up
holding a null native handle. -/
theorem claim_C3_counterexample :
    ¬ ((GraphicsPipeline.compileStep ⟨0, 0⟩).fatalInvoked = true
        ∧ (GraphicsPipeline.compileStep ⟨0, 0⟩).storedHandle ≠ some 0) := by
  decide

/-- C3 amended: when native graphics-pipeline creation reports success but
yields a null handle, the outcome is logged as an error (logerr with the
program and variant identifiers) but the global fatal/exit path is not
invoked, and the pipeline stores the null handle; the fatal path fires only
for an error result. -/
theorem claim_C3_null_success_logged (drv : DriverGfxReply)
    (hok : drv.createResult = 0) (hnull : drv.retHandle = 0) :
    GraphicsPipeline.compileStep drv =
      { fatalInvoked := false, errorLogged := true, storedHandle := some 0 } := by
  simp [GraphicsPipeline.compileStep, vulkanFail, hok, hnull]

/-- Witness for the amended C3 at the concrete reply (VK_SUCCESS, null). -/
theorem claim_C3_witness :
    GraphicsPipeline.compileStep ⟨0, 0⟩ =
      { fatalInvoked := false, errorLogged := true, storedHandle := some 0 } :=
  claim_C3_null_success_logged ⟨0, 0⟩ rfl rfl

/-- C2: two add calls into the same pipeline-kind storage with structurally
equal layout creation descriptions — whatever other adds happen in between,
and in either order — produce pipelines referencing the same Layout object:
both slots end up holding a pipeline whose layout index is the one and same
first structural match, because findOrAddLayout scans linearly, returns the
first match, and only appends when nothing matches. -/
theorem claim_C2_same_layout_shared (kindTag : Nat) (s s1 s2 s3 : Storage α)
    (p1 p2 : ProgramID) (d : α) (ops : List (ProgramID × α))
    (h1 : s.add kindTag p1 d = some s1)
    (h2 : s1.addSeq kindTag ops = some s2)
    (h3 : s2.add kindTag p2 d = some s3) :
    ∃ k, s3.pipelines.getD (getIndexFromID p1) none = some ⟨k, d⟩
       ∧ s3.pipelines.getD (getIndexFromID p2) none = some ⟨k, d⟩ := by
  refine ⟨(findOrAddLayout s.layouts d).1, ?_, ?_⟩
  · have hs1 := Storage.add_sets_slot h1
    have hs2 : s2.pipelines.getD (getIndexFromID p1) none =
        some ⟨(findOrAddLayout s.layouts d).1, d⟩ := by
      rw [Storage.addSeq_preserves_slot h2 _ (by rw [hs1]; simp), hs1]
    rw [Storage.add_preserves_slot h3 _ (by rw [hs2]; simp), hs2]
  · have hs3 := Storage.add_sets_slot h3
    obtain ⟨-, hl1, -, -⟩ := Storage.add_spec h1
    obtain ⟨t, ht⟩ := Storage.addSeq_layouts_grow h2
    rw [hs3, ht, hl1, findOrAddLayout_idx_stable]

/-- Witness for C2: in a concrete storage, add description 42 at slot 0,
then an unrelated description 7 at slot 1, then description 42 again at
slot 2; both 42-pipelines reference layout index 0. -/
theorem claim_C2_witness :
    ∃ k, (⟨[42, 7], [some ⟨0, 42⟩, some ⟨1, 7⟩, some ⟨0, 42⟩]⟩ :
          Storage Nat).pipelines.getD (getIndexFromID ⟨1, 0⟩) none = some ⟨k, 42⟩
       ∧ (⟨[42, 7], [some ⟨0, 42⟩, some ⟨1, 7⟩, some ⟨0, 42⟩]⟩ :
          Storage Nat).pipelines.getD (getIndexFromID ⟨1, 2⟩) none = some ⟨k, 42⟩ :=
  claim_C2_same_layout_shared 1 ⟨[], []⟩ ⟨[42], [some ⟨0, 42⟩]⟩
    ⟨[42, 7], [some ⟨0, 42⟩, some ⟨1, 7⟩]⟩
    ⟨[42, 7], [some ⟨0, 42⟩, some ⟨1, 7⟩, some ⟨0, 42⟩]⟩
    ⟨1, 0⟩ ⟨1, 2⟩ 42 [(⟨1, 1⟩, 7)] (by decide) (by decide) (by decide)

/-- C4 counterexample: at the concrete input mask 0b10, legacy (non-native)
render pass and colorSamples all 2, slot 1 is a multisample resolve
attachment and is skipped, so the attachment count is 1, not the claimed
highest-set-bit index plus one (which is 2). -/
theorem claim_C4_counterexample :
    colorBlendAttachmentCount 2 (fun _ => 2) false ≠ Nat.log2 2 + 1 := by
  have h2 : Nat.log2 2 = 1 := by simp [Nat.log2]
  rw [h2]
  decide

/-- C4 amended: for a non-zero color-target mask (within the 8-bit range
the loop consumes), the color-blend attachment count equals the index of
the highest set bit of the mask plus one, provided no slot is skipped as a
multisample resolve attachment — that is, when the pipeline uses a native
render pass or no color target is multisampled; with a legacy render pass
and multisampled color targets, resolve-attachment slots are skipped and
reduce the count. -/
theorem claim_C4_highest_bit (mask : Nat) (cs : Nat → Nat) (nativeRP : Bool)
    (hpos : 0 < mask) (hlt : mask < 256)
    (hns : nativeRP = true ∨ ∀ j, cs j ≤ 1) :
    colorBlendAttachmentCount mask cs nativeRP = Nat.log2 mask + 1 := by
  unfold colorBlendAttachmentCount
  rw [if_pos (by omega), Nat.mod_eq_of_lt hlt,
    attachmentLoop_no_skip cs nativeRP hns MAX_SIMRT mask 0 0 (by omega)
      (by unfold MAX_SIMRT; omega)]
  omega

/-- Witness for the amended C4 at mask 0b1001 with a native render pass:
four attachments. -/
theorem claim_C4_witness :
    colorBlendAttachmentCount 9 (fun _ => 2) true = Nat.log2 9 + 1 :=
  claim_C4_highest_bit 9 (fun _ => 2) true (by decide) (by decide) (Or.inl rfl)

/-- C5: whenever the resolved render-target configuration has no depth
attachment, the constructed create-info has depth test, depth write, depth
bounds test and stencil test disabled, and depth bias (and depth clamp)
disabled in the rasterization state, irrespective of the static render
state, the platform, and the read-only-depth flag. -/
theorem claim_C5_no_depth_disables_all (targetAndroid : Bool)
    (ss : StaticStateBits) (forceNoZWrite : Bool) :
    buildDepthAndRaster targetAndroid ss forceNoZWrite false =
      ({ depthTestEnable := false, depthWriteEnable := false
         depthBoundsTestEnable := false, stencilTestEnable := false },
       { depthClampEnable := false, depthBiasEnable := false }) := by
  simp [buildDepthAndRaster]

/-- C6: with a designated parent pipeline, createPipelineObject marks the
create-info as a derivative (flags gain VK_PIPELINE_CREATE_DERIVATIVE_BIT,
basePipelineIndex becomes -1, basePipelineHandle becomes the parent's
handle) exactly when the parent's compiled native handle is non-null at
that moment; with a still-null parent handle the create-info is left
unchanged (non-derivative), and compilation proceeds without error for any
successful driver reply. -/
theorem claim_C6_derivative_best_effort (parentHandle : Nat)
    (g : GpciDerivFields) (drv : DriverGfxReply) :
    (parentHandle ≠ 0 →
      createPipelineObjectDerivStep (some parentHandle) g =
        { flags := g.flags ||| VK_PIPELINE_CREATE_DERIVATIVE_BIT
          basePipelineIndex := -1
          basePipelineHandle := parentHandle })
    ∧ (parentHandle = 0 →
        createPipelineObjectDerivStep (some parentHandle) g = g
        ∧ (drv.createResult = 0 → drv.retHandle ≠ 0 →
            (GraphicsPipeline.compileStep drv).fatalInvoked = false
            ∧ (GraphicsPipeline.compileStep drv).errorLogged = false)) := by
  constructor
  · intro hne
    simp [createPipelineObjectDerivStep, hne]
  · intro hz
    subst hz
    refine ⟨by simp [createPipelineObjectDerivStep], ?_⟩
    intro hok hhandle
    simp [GraphicsPipeline.compileStep, vulkanFail, hok, hhandle]

/-- Witness for C6 at a compiled parent handle 5 and at a null parent
handle with a successful driver reply carrying handle 9. -/
theorem claim_C6_witness :
    createPipelineObjectDerivStep (some 5) initialGpciDerivFields =
      { flags := initialGpciDerivFields.flags ||| VK_PIPELINE_CREATE_DERIVATIVE_BIT
        basePipelineIndex := -1
        basePipelineHandle := 5 }
    ∧ createPipelineObjectDerivStep (some 0) initialGpciDerivFields =
        initialGpciDerivFields
    ∧ (GraphicsPipeline.compileStep ⟨0, 9⟩).fatalInvoked = false :=
  ⟨(claim_C6_derivative_best_effort 5 initialGpciDerivFields ⟨0, 9⟩).1 (by decide),
   ((claim_C6_derivative_best_effort 0 initialGpciDerivFields ⟨0, 9⟩).2 rfl).1,
   (((claim_C6_derivative_best_effort 0 initialGpciDerivFields ⟨0, 9⟩).2 rfl).2
      rfl (by decide)).1⟩

/-- C8: for a forced sample count greater than one, the translated
sample-count bit equals the count itself, the first G_ASSERTF fires (is
false) whenever that bit is not contained in the device's supported
no-attachment sample-count bitmask, and the second G_ASSERTF fires
whenever the configuration has a depth attachment or a non-zero
color-target mask. -/
theorem claim_C8_forced_ms_asserts (count colorMask devMask : Nat)
    (hasDepth : Bool) (hcount : 1 < count) :
    (checkSampleCount count colorMask hasDepth devMask).ret = count
    ∧ (devMask &&& count = 0 →
        (checkSampleCount count colorMask hasDepth devMask).assertSampleSupported
          = false)
    ∧ ((hasDepth = true ∨ colorMask ≠ 0) →
        (checkSampleCount count colorMask hasDepth devMask).assertNoAttachments
          = false) := by
  have hnot : ¬ count ≤ 1 := by omega
  unfold checkSampleCount
  rw [if_neg hnot]
  simp only [sampleCountSwitch_eq]
  refine ⟨by simp, fun h => by simp [h], fun h => ?_⟩
  rcases h with h | h <;> simp [h]

/-- Witness for C8 at count 4, a device mask without bit 4, and an active
color-target mask with a depth attachment. -/
theorem claim_C8_witness :
    (checkSampleCount 4 1 true 2).ret = 4
    ∧ (checkSampleCount 4 1 true 2).assertSampleSupported = false
    ∧ (checkSampleCount 4 1 true 2).assertNoAttachments = false :=
  ⟨(claim_C8_forced_ms_asserts 4 1 2 true (by decide)).1,
   (claim_C8_forced_ms_asserts 4 1 2 true (by decide)).2.1 (by decide),
   (claim_C8_forced_ms_asserts 4 1 2 true (by decide)).2.2 (Or.inl rfl)⟩

/-- C10: for a forced sample count of at most one, checkSampleCount
returns the one-sample count immediately and neither assertion is
evaluated (both assertion conditions hold), for every color mask, depth
flag and device capability bitmask. -/
theorem claim_C10_low_count_no_assert (count colorMask devMask : Nat)
    (hasDepth : Bool) (hcount : count ≤ 1) :
    checkSampleCount count colorMask hasDepth devMask =
      { ret := 1, assertSampleSupported := true, assertNoAttachments := true } := by
  simp [checkSampleCount, hcount]

/-- Witness for C10 at count 1 with an active color mask, a depth
attachment and an empty device capability bitmask. -/
theorem claim_C10_witness :
    checkSampleCount 1 5 true 0 =
      { ret := 1, assertSampleSupported := true, assertNoAttachments := true } :=
  claim_C10_low_count_no_assert 1 5 0 true (by decide)

/-- C7: taking out a slot that holds a live pipeline returns exactly that
pipeline pointer, leaves the slot null (so valid for that program
identifier is false and the G_ASSERT of takeOut held), lets a subsequent
add with the same program identifier pass its empty-slot assertion for any
description, and leaves every other slot unchanged. -/
theorem claim_C7_takeOut_detaches (kindTag : Nat) (s : Storage α)
    (p : ProgramID) (pipe : Pipe α) (htag : checkID kindTag p = true)
    (hslot : s.pipelines.getD (getIndexFromID p) none = some pipe) :
    (s.takeOut (getIndexFromID p)).1 = some pipe
    ∧ (s.takeOut (getIndexFromID p)).2.valid kindTag p = false
    ∧ (∀ d : α, (s.takeOut (getIndexFromID p)).2.add kindTag p d ≠ none)
    ∧ ∀ j, j ≠ getIndexFromID p →
        (s.takeOut (getIndexFromID p)).2.pipelines.getD j none =
          s.pipelines.getD j none := by
  have hlt : getIndexFromID p < s.pipelines.length :=
    list_getD_ne_none_lt _ _ (by rw [hslot]; simp)
  have hnew : ((s.pipelines.set (getIndexFromID p) none)[getIndexFromID p]?).getD
      none = none := by
    rw [List.getElem?_set_self hlt]
    rfl
  refine ⟨hslot, ?_, ?_, ?_⟩
  · simp [Storage.takeOut, Storage.valid, hnew]
  · intro d
    have hespace : ensureSpaceForIndex
        (s.pipelines.set (getIndexFromID p) none) (getIndexFromID p) =
        s.pipelines.set (getIndexFromID p) none := by
      unfold ensureSpaceForIndex
      rw [if_neg]
      rw [List.length_set]
      omega
    simp [Storage.takeOut, Storage.add, htag, hespace, hnew]
  · intro j hj
    simp only [Storage.takeOut]
    rw [List.getD_eq_getElem?_getD, List.getElem?_set_ne (Ne.symm hj),
      ← List.getD_eq_getElem?_getD]

/-- Witness for C7 on a concrete two-slot storage of compute-kind tag. -/
theorem claim_C7_witness :
    ((⟨[7, 9], [some ⟨0, 7⟩, some ⟨1, 9⟩]⟩ : Storage Nat).takeOut
        (getIndexFromID ⟨1, 0⟩)).1 = some ⟨0, 7⟩
    ∧ ((⟨[7, 9], [some ⟨0, 7⟩, some ⟨1, 9⟩]⟩ : Storage Nat).takeOut
        (getIndexFromID ⟨1, 0⟩)).2.valid 1 ⟨1, 0⟩ = false :=
  ⟨(claim_C7_takeOut_detaches 1 ⟨[7, 9], [some ⟨0, 7⟩, some ⟨1, 9⟩]⟩
      ⟨1, 0⟩ ⟨0, 7⟩ (by decide) (by decide)).1,
   (claim_C7_takeOut_detaches 1 ⟨[7, 9], [some ⟨0, 7⟩, some ⟨1, 9⟩]⟩
      ⟨1, 0⟩ ⟨0, 7⟩ (by decide) (by decide)).2.1⟩

/-- C9: visit invokes the callback at most once; when the identifier's
namespace tag matches no pipeline-kind storage, or the matching storage's
valid check fails, visit returns false with no invocation (and, being a
read-only dispatch, no storage is modified); otherwise it invokes the
callback exactly once and returns true. -/
theorem claim_C9_visit_at_most_once (m : PipelineManager α) (p : ProgramID) :
    (m.visit p).2.length ≤ 1
    ∧ ((m.visit p).1 = true ↔ (m.visit p).2.length = 1)
    ∧ ((p.tag ≠ graphicsTag ∧ p.tag ≠ computeTag ∧ p.tag ≠ raytraceTag) →
        m.visit p = (false, []))
    ∧ (p.tag = graphicsTag → m.graphics.valid graphicsTag p = false →
        m.visit p = (false, []))
    ∧ (p.tag = computeTag → m.compute.valid computeTag p = false →
        m.visit p = (false, []))
    ∧ (p.tag = raytraceTag → m.raytrace.valid raytraceTag p = false →
        m.visit p = (false, [])) := by
  unfold PipelineManager.visit
  split_ifs with h1 h2 h3 h4 h5 h6 <;>
    simp_all [checkID, graphicsTag, computeTag, raytraceTag]

/-- Witness for C9 at an identifier whose tag matches no storage. -/
theorem claim_C9_witness :
    (PipelineManager.visit (α := Nat) ⟨⟨[], []⟩, ⟨[], []⟩, ⟨[], []⟩⟩ ⟨5, 0⟩)
      = (false, []) :=
  (claim_C9_visit_at_most_once ⟨⟨[], []⟩, ⟨[], []⟩, ⟨[], []⟩⟩ ⟨5, 0⟩).2.2.1
    (by decide)

end drv3d_vulkan
